import Mathlib

/-!
Verification of the option-trading backtest system: a shallow embedding of
`backtester.py`, `config.py`, `data_service.py`, `models.py` and
`trading_engine.py` in Lean 4, with theorems settling the specification
claims about the performance calculator, the position state machine and
the backtest driver.

Modelling conventions:
* Python floats are modelled as exact rationals (`ℚ`); decimal literals such
  as `1.10` or `0.25` become the exact rationals `11/10`, `1/4`.
* Fallible Python code is modelled with `Except String`; the string names the
  Python exception that the source raises on that path.
* numpy float division by zero does not raise but yields a non-finite value
  (inf/NaN); where a claim depends on this it is modelled by an explicit
  outcome constructor rather than a junk rational.
* Wall-clock and randomness (`datetime.now()`, `uuid.uuid4()`) carry no
  trading logic: `now` becomes an explicit parameter where the source reads
  the clock, and the random `trade_id` / string `contract_id` fields, which
  no logic inspects, are omitted from the records.
* External market-data lookups (`yfinance` calls in `data_service.py`) are
  oracle parameters: `find_optimal_option` and `get_current_market_data`
  results are supplied by function arguments.
-/

/-! ### Calendar dates

`datetime` values are modelled as calendar dates; day arithmetic uses the
standard civil-from-days/days-from-civil conversions, so that
`(d1 - d0).days`, weekday computation for pandas `freq='B'` ranges, and the
trading-calendar membership test of `config.py` are all executable. -/

structure Date where
  year : Nat
  month : Nat
  day : Nat
deriving DecidableEq, Repr, Inhabited

/-- Days since 0000-03-01 of a civil date (valid for year ≥ 1). -/
def daysFromCivil (dt : Date) : Nat :=
  let y := if dt.month ≤ 2 then dt.year - 1 else dt.year
  let era := y / 400
  let yoe := y % 400
  let mp := (dt.month + 9) % 12
  let doy := (153 * mp + 2) / 5 + dt.day - 1
  let doe := yoe * 365 + yoe / 4 - yoe / 100 + doy
  era * 146097 + doe

/-- Civil date from a count of days since 0000-03-01. -/
def civilFromDays (z : Nat) : Date :=
  let era := z / 146097
  let doe := z % 146097
  let yoe := (doe - doe / 1460 + doe / 36524 - doe / 146096) / 365
  let y := yoe + era * 400
  let doy := doe - (365 * yoe + yoe / 4 - yoe / 100)
  let mp := (5 * doy + 2) / 153
  let d := doy - (153 * mp + 2) / 5 + 1
  let m := if mp < 10 then mp + 3 else mp - 9
  { year := if m ≤ 2 then y + 1 else y, month := m, day := d }

/-- Day 0 (0000-03-01) was a Wednesday; Monday = 0. -/
def weekdayOfDayNumber (z : Nat) : Nat := (z + 2) % 7

/-- pandas `freq='B'` keeps Monday..Friday. -/
def isBusinessDayNumber (z : Nat) : Bool := weekdayOfDayNumber z < 5

/-- `pd.date_range(start=start, end=end, freq='B')`: every weekday in the
inclusive range (pandas `'B'` excludes weekends only, not holidays). -/
def business_date_range (start stop : Date) : List Date :=
  let s := daysFromCivil start
  let e := daysFromCivil stop
  (((List.range (e + 1 - s)).map (fun i => s + i)).filter
    isBusinessDayNumber).map civilFromDays

/-- `(d1 - d0).days` of Python `datetime` subtraction. -/
def dateDiffDays (d1 d0 : Date) : Int :=
  (daysFromCivil d1 : Int) - (daysFromCivil d0 : Int)

/-! ### models.py -/

inductive OptionType where
  | put
  | call
deriving DecidableEq, Repr

inductive PositionState where
  | cash
  | put_sold
  | stock_owned
  | call_sold
deriving DecidableEq, Repr

structure OptionContract where
  symbol : String
  option_type : OptionType
  strike : ℚ
  expiration : Date
  premium : ℚ
  delta : ℚ
  iv_rank : ℚ
  dte : Int
deriving DecidableEq, Repr

structure Trade where
  symbol : String
  option_type : OptionType
  action : String
  quantity : Int
  price : ℚ
  strike : ℚ
  expiration : Date
  premium : ℚ
  delta : Option ℚ
  iv_rank : Option ℚ
deriving DecidableEq, Repr

/-! ### config.py -/

/-- The four configured tickers: the keys of `STOCK_CONFIGS`, which are also
exactly the keys of the portfolio's position dictionary. -/
inductive Ticker where
  | NVDA
  | GOOGL
  | TSLA
  | QQQ
deriving DecidableEq, Repr

/-- Dictionary insertion order of `STOCK_CONFIGS`. -/
def allSymbols : List Ticker := [.NVDA, .GOOGL, .TSLA, .QQQ]

structure PortfolioPosition where
  symbol : Ticker
  state : PositionState
  quantity : Int
  average_cost : ℚ
  current_option : Option OptionContract
  open_trades : List Trade
deriving DecidableEq, Repr

structure Portfolio where
  cash : ℚ
  positions : List (Ticker × PortfolioPosition)
  total_value : ℚ
deriving DecidableEq, Repr

structure MarketData where
  symbol : Ticker
  price : ℚ
  iv_30 : ℚ
  iv_rank : ℚ
  moving_averages : List (String × ℚ)
  vix : ℚ
deriving DecidableEq, Repr

structure StockConfig where
  symbol : Ticker
  weight : ℚ
  put_delta_range : ℚ × ℚ
  call_delta_range : ℚ × ℚ
  max_puts : Int
deriving DecidableEq, Repr

structure StrategyConfig where
  dte_range : Int × Int
  roll_dte_threshold : Int
  profit_take_percent : ℚ
  iv_rank_threshold : ℚ
  vix_threshold : ℚ
  bear_market_put_delta : ℚ × ℚ
  put_allocation : ℚ
  call_allocation : ℚ
deriving DecidableEq, Repr

def STRATEGY_CONFIG : StrategyConfig :=
  { dte_range := (30, 45)
    roll_dte_threshold := 10
    profit_take_percent := 7/10
    iv_rank_threshold := 4/5
    vix_threshold := 35
    bear_market_put_delta := (1/10, 3/20)
    put_allocation := 3/5
    call_allocation := 2/5 }

def STOCK_CONFIGS (s : Ticker) : StockConfig :=
  match s with
  | .NVDA =>
      { symbol := .NVDA, weight := 1/4, put_delta_range := (3/20, 1/5)
        call_delta_range := (3/20, 1/5), max_puts := 2 }
  | .GOOGL =>
      { symbol := .GOOGL, weight := 1/4, put_delta_range := (1/5, 1/4)
        call_delta_range := (3/20, 1/5), max_puts := 2 }
  | .TSLA =>
      { symbol := .TSLA, weight := 1/5, put_delta_range := (3/20, 1/5)
        call_delta_range := (3/20, 1/5), max_puts := 2 }
  | .QQQ =>
      { symbol := .QQQ, weight := 3/10, put_delta_range := (1/5, 1/4)
        call_delta_range := (3/20, 1/5), max_puts := 2 }

/-- `TRADING_CALENDAR`: first trading day of each month of 2024. -/
def TRADING_CALENDAR : List Date :=
  [⟨2024, 1, 2⟩, ⟨2024, 2, 1⟩, ⟨2024, 3, 1⟩, ⟨2024, 4, 1⟩,
   ⟨2024, 5, 1⟩, ⟨2024, 6, 3⟩, ⟨2024, 7, 1⟩, ⟨2024, 8, 1⟩,
   ⟨2024, 9, 3⟩, ⟨2024, 10, 1⟩, ⟨2024, 11, 1⟩, ⟨2024, 12, 2⟩]

/-- `config.is_first_trading_day`: membership of the formatted date in the
fixed trading calendar. -/
def is_first_trading_day (d : Date) : Bool :=
  decide (d ∈ TRADING_CALENDAR)

/-! ### backtester.py — calculate_performance_metrics -/

/-- `pd.Series(values).pct_change().dropna()`: simple day-over-day
percentage returns, the leading NaN dropped. -/
def pct_change_dropna (values : List ℚ) : List ℚ :=
  List.zipWith (fun prev cur => (cur - prev) / prev) values values.tail

/-- `Series.mean()`. -/
def seriesMean (l : List ℚ) : ℚ := l.sum / (l.length : ℚ)

/-- `Series.std()` squared: pandas sample variance (ddof = 1). The standard
deviation itself is irrational in general; it is zero exactly when this
variance is zero, which is all the metric logic needs. -/
def sampleVariance (l : List ℚ) : ℚ :=
  (l.map (fun x => (x - seriesMean l) ^ 2)).sum / ((l.length : ℚ) - 1)

/-- Accumulator recursion of `np.maximum.accumulate`. -/
def peakAccum (p : ℚ) : List ℚ → List ℚ
  | [] => []
  | x :: xs => max p x :: peakAccum (max p x) xs

/-- `np.maximum.accumulate(values)`: running maximum. -/
def running_peak : List ℚ → List ℚ
  | [] => []
  | x :: xs => x :: peakAccum x xs

/-- `(values - peak) / peak`, elementwise. -/
def drawdown_series (values : List ℚ) : List ℚ :=
  List.zipWith (fun v p => (v - p) / p) values (running_peak values)

/-- `np.min` as a fold (np.min raises on an empty array; the caller
guarantees a nonempty equity curve before this is reached). -/
def npMin : List ℚ → ℚ
  | [] => 0
  | x :: xs => xs.foldl min x

/-- `max_drawdown` of `calculate_performance_metrics`. -/
def max_drawdown_calc (values : List ℚ) : ℚ :=
  npMin (drawdown_series values)

/-- Outcome of the Sharpe-ratio expression. `zero` is the Python int `0` of
the `else` branch; `nonfinite` models numpy's silent division by a zero
standard deviation (inf or NaN — no exception, no guard in the source);
`value m v` stands for the finite float `sqrt(252) * m / sqrt(v)` where `m`
is the mean of the returns and `v` their sample variance. -/
inductive SharpeOutcome where
  | zero
  | nonfinite
  | value (mean variance : ℚ)
deriving DecidableEq, Repr

/-- `np.sqrt(252) * returns.mean() / returns.std() if len(returns) > 1 else 0`. -/
def sharpe_ratio_calc (returns : List ℚ) : SharpeOutcome :=
  if 1 < returns.length then
    if sampleVariance returns = 0 then .nonfinite
    else .value (seriesMean returns) (sampleVariance returns)
  else .zero

/-- Result dictionary of `calculate_performance_metrics`. The annualized
return is the float `annualized_base ** annualized_exp - 1`; the base
`1 + total_return` and exponent `365.25 / days_in_period` are recorded
exactly, keeping the record computable. -/
structure Metrics where
  total_return : ℚ
  annualized_base : ℚ
  annualized_exp : ℚ
  max_drawdown : ℚ
  sharpe_ratio : SharpeOutcome
  final_value : ℚ
deriving DecidableEq, Repr

/-- `backtester.calculate_performance_metrics`. Error strings name the
Python exception raised on that path: `values[-1]` on an empty list raises
IndexError; float division `values[-1] / 0.0` and `365.25 / 0` raise
ZeroDivisionError. -/
def calculate_performance_metrics (equity_curve : List (Date × ℚ))
    (initial_capital : ℚ) : Except String Metrics :=
  let dates := equity_curve.map Prod.fst
  let values := equity_curve.map Prod.snd
  let returns := pct_change_dropna values
  if values = [] then .error "IndexError"
  else if initial_capital = 0 then .error "ZeroDivisionError"
  else
    let total_return := values.getLastD 0 / initial_capital - 1
    let days_in_period := dateDiffDays (dates.getLastD ⟨1970, 1, 1⟩)
      (dates.headD ⟨1970, 1, 1⟩)
    if days_in_period = 0 then .error "ZeroDivisionError"
    else
      .ok { total_return := total_return
            annualized_base := 1 + total_return
            annualized_exp := (1461/4) / (days_in_period : ℚ)
            max_drawdown := max_drawdown_calc values
            sharpe_ratio := sharpe_ratio_calc returns
            final_value := values.getLastD 0 }

/-! ### data_service.py -/

/-- Fields of the contract dictionary returned by `find_optimal_option` that
the engine reads: `bid`, `strike`, `expiration`, and the optional
`delta` / `iv_rank` entries accessed with `.get`. -/
structure OptionData where
  bid : ℚ
  strike : ℚ
  expiration : Date
  delta : Option ℚ
  iv_rank : Option ℚ
deriving DecidableEq, Repr

/-- Oracle for `data_service.find_optimal_option` — an external `yfinance`
lookup: symbol, option type, delta range, current price, DTE range. -/
def FindOptimalOption : Type :=
  Ticker → OptionType → (ℚ × ℚ) → ℚ → (Int × Int) → Option OptionData

/-- Per-symbol market snapshot map as built by `get_current_market_data`
for the configured symbols (one entry per `STOCK_CONFIGS` key, so lookups
by the engine and the `'QQQ'` lookup of the bear-market predicate always
succeed). -/
def MarketMap : Type := Ticker → MarketData

/-- `data_service.is_bear_market_conditions`: any snapshot VIX above the
hard-coded 35, or QQQ price below its 200-day moving average (the moving
average read from the snapshot's dictionary when present). -/
def is_bear_market_conditions (market_data : MarketMap) : Bool :=
  let vix_condition := (allSymbols.map market_data).any
    (fun data => decide (data.vix > 35))
  let qqq_data := market_data .QQQ
  let qqq_condition :=
    match qqq_data.moving_averages.lookup "200_day" with
    | some ma => decide (qqq_data.price < ma)
    | none => false
  vix_condition || qqq_condition

/-! ### trading_engine.py -/

/-- Ticker names as the Python strings compared by
`symbol in ["NVDA", "TSLA"]` and `symbol in ["QQQ", "GOOGL"]`. -/
def Ticker.name : Ticker → String
  | .NVDA => "NVDA"
  | .GOOGL => "GOOGL"
  | .TSLA => "TSLA"
  | .QQQ => "QQQ"

/-- Bear-market adjustment of the put delta range, lines 148–155 of
`_sell_cash_secured_put`: `none` means the early `return None` (symbol
skipped). The inner `symbol in ["QQQ", "GOOGL"]` test is reproduced as
written, nested inside the `symbol in ["NVDA", "TSLA"]` guard. -/
def bear_adjusted_put_delta_range (symbol : Ticker) (bear_market : Bool) :
    Option (ℚ × ℚ) :=
  let delta_range := (STOCK_CONFIGS symbol).put_delta_range
  if bear_market ∧ (symbol.name = "NVDA" ∨ symbol.name = "TSLA") then
    if symbol.name = "QQQ" ∨ symbol.name = "GOOGL" then
      some STRATEGY_CONFIG.bear_market_put_delta
    else
      none
  else
    some delta_range

/-- `TradingEngine._sell_cash_secured_put`. Returns the optional opened
trade together with the updated portfolio cash (the source mutates
`self.portfolio.cash += trade.premium` before returning the trade). The
random `uuid` trade id and the wall-clock timestamp are omitted. -/
def sell_cash_secured_put (find_opt : FindOptimalOption) (symbol : Ticker)
    (market_data : MarketData) (bear_market : Bool) (cash : ℚ) :
    Option Trade × ℚ :=
  match bear_adjusted_put_delta_range symbol bear_market with
  | none => (none, cash)
  | some delta_range =>
    match find_opt symbol .put delta_range market_data.price
        STRATEGY_CONFIG.dte_range with
    | none => (none, cash)
    | some option_data =>
      if option_data.iv_rank.getD 1 < STRATEGY_CONFIG.iv_rank_threshold then
        let trade : Trade :=
          { symbol := symbol.name
            option_type := .put
            action := "open"
            quantity := 1
            price := option_data.bid
            strike := option_data.strike
            expiration := option_data.expiration
            premium := option_data.bid * 100
            delta := option_data.delta
            iv_rank := option_data.iv_rank }
        (some trade, cash + trade.premium)
      else
        (none, cash)

/-- `TradingEngine._sell_covered_call`: requires the found call's strike to
be at least `max(price * 1.10, cost_basis * 1.10)`; no IV-rank filter. -/
def sell_covered_call (find_opt : FindOptimalOption) (symbol : Ticker)
    (cost_basis : ℚ) (market_data : MarketData) (cash : ℚ) :
    Option Trade × ℚ :=
  let min_strike := max (market_data.price * (11/10)) (cost_basis * (11/10))
  match find_opt symbol .call (STOCK_CONFIGS symbol).call_delta_range
      market_data.price STRATEGY_CONFIG.dte_range with
  | none => (none, cash)
  | some option_data =>
    if option_data.strike ≥ min_strike then
      let trade : Trade :=
        { symbol := symbol.name
          option_type := .call
          action := "open"
          quantity := 1
          price := option_data.bid
          strike := option_data.strike
          expiration := option_data.expiration
          premium := option_data.bid * 100
          delta := option_data.delta
          iv_rank := option_data.iv_rank }
      (some trade, cash + trade.premium)
    else
      (none, cash)

/-- `TradingEngine._create_option_contract`. The source computes `dte` from
`datetime.now()`, passed here as `now`; its `market_data` parameter is
unused in the source body and omitted. -/
def create_option_contract (trade : Trade) (now : Date) : OptionContract :=
  { symbol := trade.symbol
    option_type := trade.option_type
    strike := trade.strike
    expiration := trade.expiration
    premium := trade.premium
    delta := trade.delta.getD 0
    iv_rank := trade.iv_rank.getD (1/2)
    dte := dateDiffDays trade.expiration now }

/-- `TradingEngine._process_stock_position`. The result is the updated
position, the updated portfolio cash, and the list of executed trades.

`TradingEngine` defines none of the helpers `_get_current_option_premium`,
`_buy_back_option`, `_roll_option`, `_exercise_option`,
`_exercise_call_option` (the class body ends with a comment saying they
"would be implemented here"); in Python the attribute lookup
`self._get_current_option_premium` on line 73 (PUT_SOLD) or line 111
(STOCK_OWNED with an open call) raises `AttributeError` before any
profit-take / roll / exercise condition is evaluated, so those branches are
modelled as errors at that first missing attribute. The CALL_SOLD branch of
the source is literally `pass`. -/
def process_stock_position (find_opt : FindOptimalOption) (now : Date)
    (current_date : Date) (symbol : Ticker) (position : PortfolioPosition)
    (market_data : MarketData) (bear_market : Bool) (cash : ℚ) :
    Except String (PortfolioPosition × ℚ × List Trade) :=
  match position.state with
  | .cash =>
    if is_first_trading_day current_date then
      match sell_cash_secured_put find_opt symbol market_data bear_market
          cash with
      | (some put_trade, cash') =>
        .ok ({ position with
                state := .put_sold
                current_option := some (create_option_contract put_trade now) },
             cash', [put_trade])
      | (none, cash') => .ok (position, cash', [])
    else
      .ok (position, cash, [])
  | .put_sold =>
    match position.current_option with
    | some _ => .error "AttributeError: _get_current_option_premium"
    | none => .ok (position, cash, [])
  | .stock_owned =>
    match position.current_option with
    | none =>
      match sell_covered_call find_opt symbol position.average_cost
          market_data cash with
      | (some call_trade, cash') =>
        .ok ({ position with
                state := .call_sold
                current_option := some (create_option_contract call_trade now) },
             cash', [call_trade])
      | (none, cash') => .ok (position, cash', [])
    | some _ => .error "AttributeError: _get_current_option_premium"
  | .call_sold =>
    .ok (position, cash, [])

/-- The per-symbol loop of `TradingEngine.execute_strategy`: positions are
processed in dictionary order, threading the shared portfolio cash; a raised
exception aborts the whole loop, as in Python. -/
def process_positions (find_opt : FindOptimalOption) (market : MarketMap)
    (now current_date : Date) (bear_market : Bool) :
    List (Ticker × PortfolioPosition) → ℚ →
    Except String (List (Ticker × PortfolioPosition) × ℚ × List Trade)
  | [], cash => .ok ([], cash, [])
  | (symbol, position) :: rest, cash =>
    match process_stock_position find_opt now current_date symbol position
        (market symbol) bear_market cash with
    | .error e => .error e
    | .ok (position', cash', trades) =>
      match process_positions find_opt market now current_date bear_market
          rest cash' with
      | .error e => .error e
      | .ok (rest', cash'', trades') =>
        .ok ((symbol, position') :: rest', cash'', trades ++ trades')

/-- `TradingEngine._update_portfolio_value`: cash plus stock value plus
open option premiums (the source's mark-to-market approximation). -/
def update_portfolio_value (market : MarketMap)
    (positions : List (Ticker × PortfolioPosition)) (cash : ℚ) : ℚ :=
  let stock_value := (positions.map
    (fun p => (p.2.quantity : ℚ) * (market p.1).price)).sum
  let option_value := (positions.map
    (fun p => match p.2.current_option with
              | some c => c.premium
              | none => 0)).sum
  cash + stock_value + option_value

/-- `TradingEngine.execute_strategy` for one day: fetch the day's market
snapshot map (supplied by the oracle), compute the bear-market predicate,
process every position, then revalue the portfolio. -/
def execute_strategy (find_opt : FindOptimalOption) (market : MarketMap)
    (now current_date : Date) (portfolio : Portfolio) :
    Except String (Portfolio × List Trade) :=
  let bear_market := is_bear_market_conditions market
  match process_positions find_opt market now current_date bear_market
      portfolio.positions portfolio.cash with
  | .error e => .error e
  | .ok (positions', cash', trades) =>
    .ok ({ cash := cash'
           positions := positions'
           total_value := update_portfolio_value market positions' cash' },
         trades)

/-- `TradingEngine._initialize_portfolio`: every configured symbol starts in
CASH with no shares and no option. -/
def initialize_portfolio (initial_capital : ℚ) : Portfolio :=
  { cash := initial_capital
    positions := allSymbols.map (fun s =>
      (s, { symbol := s, state := .cash, quantity := 0, average_cost := 0
            current_option := none, open_trades := [] }))
    total_value := initial_capital }

/-! ### run_backtest (trading_engine.py)

`trading_engine.py` imports `datetime`, `typing`, `uuid`, `models`,
`config` and `data_service` only — it never imports pandas. `run_backtest`
nevertheless evaluates `pd.date_range(start=start_date, end=end_date,
freq='B')` at line 261, immediately after constructing the engine at line
258, so every call raises `NameError: name 'pd' is not defined` before the
`results` dictionary is created and before any equity-curve point or
portfolio snapshot could be appended. The daily loop of lines 263–278 is
unreachable dead code. (`business_date_range` above records what the
`pd.date_range` call would compute if the import existed.) -/

/-- The `results` dictionary `run_backtest` would return — equity curve,
snapshot log and flat trade ledger. No execution ever produces one. -/
structure RunResult where
  equity_curve : List (Date × ℚ)
  portfolio_snapshots : List Portfolio
  trades_executed : List Trade
deriving DecidableEq, Repr

/-- `trading_engine.run_backtest`: the engine construction of line 258
succeeds, then the unresolved module name `pd` at line 261 raises
`NameError`, unconditionally — for every date range and initial capital,
and before any snapshot is appended. -/
def run_backtest (start_date end_date : Date) (initial_capital : ℚ) :
    Except String RunResult :=
  .error "NameError: name 'pd' is not defined"

/-! ### Helper lemmas about the drawdown computation -/

lemma foldl_min_le_init (l : List ℚ) (a : ℚ) : l.foldl min a ≤ a := by
  induction l generalizing a with
  | nil => exact le_refl a
  | cons x xs ih => exact le_trans (ih (min a x)) (min_le_left a x)

lemma le_foldl_min (l : List ℚ) (a b : ℚ) (ha : b ≤ a)
    (hl : ∀ x ∈ l, b ≤ x) : b ≤ l.foldl min a := by
  induction l generalizing a with
  | nil => exact ha
  | cons x xs ih =>
    exact ih (min a x) (le_min ha (hl x (List.mem_cons_self x xs)))
      (fun y hy => hl y (List.mem_cons_of_mem x hy))

lemma peak_drawdown_bounds (xs : List ℚ) (p : ℚ) (hp : 0 < p)
    (hxs : ∀ x ∈ xs, 0 < x) :
    ∀ q ∈ List.zipWith (fun v pk => (v - pk) / pk) xs (peakAccum p xs),
      -1 ≤ q ∧ q ≤ 0 := by
  induction xs generalizing p with
  | nil => intro q hq; simp [peakAccum] at hq
  | cons x rest ih =>
    intro q hq
    have hx : 0 < x := hxs x (List.mem_cons_self x rest)
    have hm : 0 < max p x := lt_of_lt_of_le hp (le_max_left p x)
    simp only [peakAccum, List.zipWith_cons_cons, List.mem_cons] at hq
    rcases hq with hq | hq
    · subst hq
      constructor
      · rw [le_div_iff₀ hm]
        nlinarith [le_max_right p x]
      · exact div_nonpos_iff.mpr
          (Or.inr ⟨sub_nonpos.2 (le_max_right p x), hm.le⟩)
    · exact ih (max p x) hm
        (fun y hy => hxs y (List.mem_cons_of_mem x hy)) q hq

lemma peak_drawdown_chain_zero (xs : List ℚ) (p : ℚ)
    (hc : List.Chain (· ≤ ·) p xs) :
    List.zipWith (fun v pk => (v - pk) / pk) xs (peakAccum p xs)
      = List.replicate xs.length 0 := by
  induction xs generalizing p with
  | nil => rfl
  | cons x rest ih =>
    rcases hc with _ | ⟨hpx, hrest⟩
    simp only [peakAccum, List.zipWith_cons_cons, List.length_cons,
      List.replicate_succ]
    rw [max_eq_right hpx, sub_self, zero_div, ih x hrest]

lemma foldl_min_replicate_zero (n : Nat) :
    List.foldl min (0 : ℚ) (List.replicate n 0) = 0 := by
  induction n with
  | zero => rfl
  | succ k ih => simpa [List.replicate_succ] using ih

/-! ### Concrete fixtures used by the claim theorems -/

/-- Scenario A equity curve of the spec, on four consecutive days. -/
def scenario_A : List (Date × ℚ) :=
  [(⟨2024, 1, 1⟩, 100000), (⟨2024, 1, 2⟩, 110000),
   (⟨2024, 1, 3⟩, 99000), (⟨2024, 1, 4⟩, 105000)]

/-- A constant equity curve: returns exist but their deviation is zero. -/
def flat_curve : List (Date × ℚ) :=
  [(⟨2024, 1, 1⟩, 100000), (⟨2024, 1, 2⟩, 100000), (⟨2024, 1, 3⟩, 100000)]

/-- Calm-market snapshot map: VIX 20, QQQ above its 200-day average. -/
def md_calm : MarketMap := fun s =>
  { symbol := s, price := 100, iv_30 := 2/5, iv_rank := 1/2
    moving_averages := [("50_day", 95), ("200_day", 90)], vix := 20 }

/-- Bear-market snapshot map: VIX 40 on every symbol. -/
def md_vix40 : MarketMap := fun s =>
  { symbol := s, price := 100, iv_30 := 2/5, iv_rank := 1/2
    moving_averages := [("50_day", 95), ("200_day", 90)], vix := 40 }

/-- Snapshot with the underlying at 90 (below a 95-strike put). -/
def md_price90 : MarketData :=
  { symbol := .NVDA, price := 90, iv_30 := 2/5, iv_rank := 1/2
    moving_averages := [("50_day", 95), ("200_day", 90)], vix := 20 }

/-- Snapshot with the underlying at 120 (above a 100-strike call, and more
than 10% above it). -/
def md_price120 : MarketData :=
  { symbol := .NVDA, price := 120, iv_30 := 2/5, iv_rank := 1/2
    moving_averages := [("50_day", 95), ("200_day", 90)], vix := 20 }

/-- Snapshot with the underlying at 60 (above a 50-strike call). -/
def md_price60 : MarketData :=
  { symbol := .TSLA, price := 60, iv_30 := 2/5, iv_rank := 1/2
    moving_averages := [("50_day", 95), ("200_day", 90)], vix := 20 }

/-- Option-chain oracle that always offers a 95-strike put-style contract
with bid 2 and IV rank 0.5 (below the 0.8 ceiling). -/
def fo_put_bid2 : FindOptimalOption := fun _ _ _ _ _ =>
  some { bid := 2, strike := 95, expiration := ⟨2024, 2, 16⟩
         delta := some (-(3/20)), iv_rank := some (1/2) }

/-- Option-chain oracle that never finds a contract. -/
def fo_none : FindOptimalOption := fun _ _ _ _ _ => none

/-- A fresh CASH position for NVDA, as initialized. -/
def nvda_cash_position : PortfolioPosition :=
  { symbol := .NVDA, state := .cash, quantity := 0, average_cost := 0
    current_option := none, open_trades := [] }

/-- A PUT_SOLD position short one 95-strike put (premium 300): with the
underlying at 90 its assignment condition `price <= strike` holds. -/
def put_assignment_position : PortfolioPosition :=
  { symbol := .NVDA, state := .put_sold, quantity := 0, average_cost := 0
    current_option := some
      { symbol := "NVDA", option_type := .put, strike := 95
        expiration := ⟨2024, 2, 16⟩, premium := 300, delta := -(3/20)
        iv_rank := 1/2, dte := 30 }
    open_trades := [] }

/-- A CALL_SOLD position short one 100-strike call over 100 shares: with
the underlying at 120 both the roll condition (`price > strike * 1.1`) and
the assignment condition (`price >= strike`) hold. -/
def call_sold_itm_position : PortfolioPosition :=
  { symbol := .NVDA, state := .call_sold, quantity := 100, average_cost := 95
    current_option := some
      { symbol := "NVDA", option_type := .call, strike := 100
        expiration := ⟨2024, 2, 16⟩, premium := 300, delta := 17/100
        iv_rank := 1/2, dte := 30 }
    open_trades := [] }

/-- A CALL_SOLD position short one 50-strike call over 100 shares: with the
underlying at 60 its assignment condition `price >= strike` holds. -/
def call_sold_strike50_position : PortfolioPosition :=
  { symbol := .TSLA, state := .call_sold, quantity := 100, average_cost := 45
    current_option := some
      { symbol := "TSLA", option_type := .call, strike := 50
        expiration := ⟨2024, 2, 16⟩, premium := 300, delta := 17/100
        iv_rank := 1/2, dte := 30 }
    open_trades := [] }

/-! ### Claim theorems -/


/-- C1: for every equity curve and initial capital, every successful run of
the performance calculator reports `total_return = value[last] /
initial_capital - 1`; on Scenario A (`[100000, 110000, 99000, 105000]` with
initial capital 100000) it reports `total_return = 0.05` and
`max_drawdown = (99000 - 110000) / 110000 = -0.1` exactly. -/
theorem total_return_formula_and_scenario_A :
    (∀ (equity_curve : List (Date × ℚ)) (initial_capital : ℚ),
      (calculate_performance_metrics equity_curve initial_capital).map
          Metrics.total_return
        = (calculate_performance_metrics equity_curve initial_capital).map
            (fun _ => (equity_curve.map Prod.snd).getLastD 0
              / initial_capital - 1))
    ∧ (calculate_performance_metrics scenario_A 100000).map
        Metrics.total_return = .ok (1/20)
    ∧ (calculate_performance_metrics scenario_A 100000).map
        Metrics.max_drawdown = .ok (-(1/10)) := by
  refine ⟨?_, ?_, ?_⟩
  · intro equity_curve initial_capital
    simp only [calculate_performance_metrics]
    split_ifs <;> simp [Except.map]
  · norm_num [calculate_performance_metrics, scenario_A, pct_change_dropna,
      dateDiffDays, daysFromCivil, max_drawdown_calc, drawdown_series,
      running_peak, peakAccum, npMin, sharpe_ratio_calc, seriesMean,
      sampleVariance, Except.map, List.cons_ne_nil]
  · norm_num [calculate_performance_metrics, scenario_A, pct_change_dropna,
      dateDiffDays, daysFromCivil, max_drawdown_calc, drawdown_series,
      running_peak, peakAccum, npMin, sharpe_ratio_calc, seriesMean,
      sampleVariance, Except.map, List.cons_ne_nil]

/-- C2: on an equity curve whose first and last dates coincide (here a
single data point) the source raises `ZeroDivisionError` computing
`365.25 / days_in_period` with `days_in_period = 0`, instead of returning
`annualized_return = 0` as the claim requires. -/
theorem annualized_return_zero_elapsed_days_raises :
    calculate_performance_metrics [(⟨2024, 1, 2⟩, 100000)] 100000
      = .error "ZeroDivisionError" := by
  norm_num [calculate_performance_metrics, dateDiffDays, daysFromCivil,
    List.cons_ne_nil]

/-- C3: the CALL_SOLD branch of `_process_stock_position` is `pass`: a
CALL_SOLD position with an open 100-strike call and the underlying at 120
(roll and assignment conditions both true) produces no trade and no state
change — none of the three call transitions the claim describes is
evaluated. -/
theorem call_sold_branch_is_a_noop :
    ∀ (find_opt : FindOptimalOption) (now current_date : Date)
      (symbol : Ticker) (cash : ℚ),
      process_stock_position find_opt now current_date symbol
          call_sold_itm_position md_price120 false cash
        = .ok (call_sold_itm_position, cash, []) :=
  fun _ _ _ _ _ => rfl

/-- C4: in a bear market NVDA and TSLA put sales are skipped before the
option oracle is even consulted, and a CASH NVDA position on the first
trading day executes zero trades (the confirmed half of the claim, with
VIX 40 making the predicate true); but the remaining eligible symbols QQQ
and GOOGL keep their configured put delta band `(0.20, 0.25)` — the
narrowed bear-market band `(0.10, 0.15)` is never substituted, because the
`symbol in ["QQQ", "GOOGL"]` test is nested inside the
`symbol in ["NVDA", "TSLA"]` guard and is unreachable. -/
theorem bear_market_put_exclusions_and_band :
    (∀ (find_opt : FindOptimalOption) (md : MarketData) (cash : ℚ),
      sell_cash_secured_put find_opt .NVDA md true cash = (none, cash))
    ∧ (∀ (find_opt : FindOptimalOption) (md : MarketData) (cash : ℚ),
      sell_cash_secured_put find_opt .TSLA md true cash = (none, cash))
    ∧ (∀ (find_opt : FindOptimalOption) (now : Date) (md : MarketData)
        (cash : ℚ),
      process_stock_position find_opt now ⟨2024, 1, 2⟩ .NVDA
          nvda_cash_position md true cash
        = .ok (nvda_cash_position, cash, []))
    ∧ is_bear_market_conditions md_vix40 = true
    ∧ bear_adjusted_put_delta_range .QQQ true
        = some (STOCK_CONFIGS .QQQ).put_delta_range
    ∧ bear_adjusted_put_delta_range .GOOGL true
        = some (STOCK_CONFIGS .GOOGL).put_delta_range
    ∧ (STOCK_CONFIGS .QQQ).put_delta_range
        ≠ STRATEGY_CONFIG.bear_market_put_delta
    ∧ (STOCK_CONFIGS .GOOGL).put_delta_range
        ≠ STRATEGY_CONFIG.bear_market_put_delta := by
  refine ⟨fun _ _ _ => rfl, fun _ _ _ => rfl, fun _ _ _ _ => rfl, ?_,
    rfl, rfl, ?_, ?_⟩
  · simp [is_bear_market_conditions, md_vix40, allSymbols, List.lookup]
    norm_num
  · norm_num [STOCK_CONFIGS, STRATEGY_CONFIG, Prod.ext_iff]
  · norm_num [STOCK_CONFIGS, STRATEGY_CONFIG, Prod.ext_iff]

/-- C5: a position in the CASH state transitions (and trades) only on a
first trading day of the calendar: on any other day the state machine
returns no trades and leaves the position — still CASH — and the cash
balance untouched, whatever the market snapshot, the bear flag and the
option oracle. -/
theorem cash_to_put_sold_only_on_first_trading_day
    (find_opt : FindOptimalOption) (now current_date : Date)
    (symbol : Ticker) (position : PortfolioPosition) (md : MarketData)
    (bear_market : Bool) (cash : ℚ)
    (hstate : position.state = .cash)
    (hday : is_first_trading_day current_date = false) :
    process_stock_position find_opt now current_date symbol position md
        bear_market cash = .ok (position, cash, []) := by
  simp [process_stock_position, hstate, hday]

/-- Witness for C5 at 2024-01-03 (a Wednesday that is not a first trading
day) with a fresh NVDA CASH position. -/
theorem cash_to_put_sold_only_on_first_trading_day_witness :
    is_first_trading_day ⟨2024, 1, 3⟩ = false
    ∧ process_stock_position fo_none ⟨2024, 1, 3⟩ ⟨2024, 1, 3⟩ .NVDA
        nvda_cash_position (md_calm .NVDA) false 100000
      = .ok (nvda_cash_position, 100000, []) :=
  ⟨rfl, cash_to_put_sold_only_on_first_trading_day fo_none ⟨2024, 1, 3⟩
    ⟨2024, 1, 3⟩ .NVDA nvda_cash_position (md_calm .NVDA) false 100000
    rfl rfl⟩

/-- C6: with three equal equity values there are two return observations,
both zero, so the standard deviation is zero; the source has no guard for
this case and numpy's division by a zero standard deviation yields a
non-finite float, not the 0 the claim requires (only the fewer-than-two-
observations case returns 0, via the `len(returns) > 1` test). -/
theorem sharpe_ratio_zero_std_not_guarded :
    (calculate_performance_metrics flat_curve 100000).map
        Metrics.sharpe_ratio = .ok .nonfinite
    ∧ sharpe_ratio_calc (pct_change_dropna [100000, 110000]) = .zero := by
  constructor
  · norm_num [calculate_performance_metrics, flat_curve, pct_change_dropna,
      dateDiffDays, daysFromCivil, max_drawdown_calc, drawdown_series,
      running_peak, peakAccum, npMin, sharpe_ratio_calc, seriesMean,
      sampleVariance, Except.map, List.cons_ne_nil]
  · norm_num [sharpe_ratio_calc, pct_change_dropna, seriesMean,
      sampleVariance]

/-- C7: for every nonempty equity curve of positive values the computed
maximum drawdown lies in `[-1, 0]`, and it is exactly 0 whenever the
values are monotonically non-decreasing. -/
theorem max_drawdown_bounds_and_monotone :
    (∀ values : List ℚ, values ≠ [] → (∀ x ∈ values, 0 < x) →
      -1 ≤ max_drawdown_calc values ∧ max_drawdown_calc values ≤ 0)
    ∧ (∀ values : List ℚ, values ≠ [] → (∀ x ∈ values, 0 < x) →
      List.Chain' (· ≤ ·) values → max_drawdown_calc values = 0) := by
  constructor
  · intro values hne hpos
    obtain ⟨v, vs, rfl⟩ := List.exists_cons_of_ne_nil hne
    have hv : 0 < v := hpos v (List.mem_cons_self v vs)
    have hvs : ∀ x ∈ vs, 0 < x :=
      fun x hx => hpos x (List.mem_cons_of_mem v hx)
    have h0 : (v - v) / v = 0 := by rw [sub_self, zero_div]
    unfold max_drawdown_calc drawdown_series running_peak npMin
    simp only [List.zipWith_cons_cons, h0]
    constructor
    · exact le_foldl_min _ _ _ (by norm_num)
        (fun x hx => (peak_drawdown_bounds vs v hv hvs x hx).1)
    · exact foldl_min_le_init _ _
  · intro values hne hpos hchain
    obtain ⟨v, vs, rfl⟩ := List.exists_cons_of_ne_nil hne
    have hchain' : List.Chain (· ≤ ·) v vs := hchain
    unfold max_drawdown_calc drawdown_series running_peak npMin
    simp only [List.zipWith_cons_cons, sub_self, zero_div,
      peak_drawdown_chain_zero vs v hchain']
    exact foldl_min_replicate_zero vs.length

/-- Witness for C7 on the positive, non-decreasing curve `[1, 2]`. -/
theorem max_drawdown_bounds_and_monotone_witness :
    (-1 ≤ max_drawdown_calc [1, 2] ∧ max_drawdown_calc [1, 2] ≤ 0)
    ∧ max_drawdown_calc [1, 2] = 0 :=
  ⟨max_drawdown_bounds_and_monotone.1 [1, 2] (by decide) (by decide),
   max_drawdown_bounds_and_monotone.2 [1, 2] (by decide) (by decide)
     (by simp [List.chain'_cons, List.chain'_singleton])⟩

/-- C8: premiums from option sales are credited to cash, but no assignment
ever moves cash: on a PUT_SOLD position whose 95-strike put is in the money
(price 90) the evaluation dies with `AttributeError` at the undefined
`_get_current_option_premium` — the transition block that would acquire the
shares contains no cash debit of `strike × 100`, and is never even
reached. -/
theorem assignment_moves_no_cash :
    (∀ (find_opt : FindOptimalOption) (now : Date) (cash : ℚ),
      process_stock_position find_opt now ⟨2024, 3, 7⟩ .NVDA
          put_assignment_position md_price90 false cash
        = .error "AttributeError: _get_current_option_premium")
    ∧ (∀ cash : ℚ,
      (sell_cash_secured_put fo_put_bid2 .NVDA md_price90 false cash).2
        = cash + 200) := by
  refine ⟨fun _ _ _ => rfl, fun cash => ?_⟩
  norm_num [sell_cash_secured_put, bear_adjusted_put_delta_range,
    Ticker.name, STRATEGY_CONFIG, STOCK_CONFIGS, fo_put_bid2, md_price90]

/-- C9: the snapshot log is never written at all: `trading_engine.py`
never imports pandas, so every call to the backtest driver — whatever the
date range and initial capital, for instance the two-business-day run
2024-01-01 → 2024-01-02 with capital 100000 — raises `NameError` at the
`pd.date_range` call of line 261, before the results dictionary exists;
no day-t value-level snapshot (nor any snapshot) is ever recorded. -/
theorem snapshot_log_never_written :
    (∀ (start_date end_date : Date) (initial_capital : ℚ),
      run_backtest start_date end_date initial_capital
        = .error "NameError: name 'pd' is not defined")
    ∧ run_backtest ⟨2024, 1, 1⟩ ⟨2024, 1, 2⟩ 100000
        = .error "NameError: name 'pd' is not defined" :=
  ⟨fun _ _ _ => rfl, rfl⟩

/-- C10 counterexample: an open call position (CALL_SOLD, 50-strike call)
whose assignment condition holds (price 60 ≥ strike 50) raises no
attribute-lookup error at all — the evaluation completes as a silent no-op,
contradicting the claim that such positions hit the undefined helpers. -/
theorem call_position_conditions_raise_no_error :
    process_stock_position fo_none ⟨2024, 1, 1⟩ ⟨2024, 3, 5⟩ .TSLA
        call_sold_strike50_position md_price60 false 0
      = .ok (call_sold_strike50_position, 0, []) := rfl

/-- C10 (amended): every PUT_SOLD position with an open option — and every
STOCK_OWNED position with an open call — raises `AttributeError` at the
first missing helper, `_get_current_option_premium`, before any transition
condition is checked and before `_buy_back_option`, `_roll_option`,
`_exercise_option` or `_exercise_call_option` could be reached; a CALL_SOLD
position is skipped silently with no error and no transition. -/
theorem missing_helper_attribute_error :
    (∀ (find_opt : FindOptimalOption) (now current_date : Date)
       (symbol : Ticker) (position : PortfolioPosition) (md : MarketData)
       (bear_market : Bool) (cash : ℚ) (c : OptionContract),
      position.state = .put_sold → position.current_option = some c →
      process_stock_position find_opt now current_date symbol position md
          bear_market cash
        = .error "AttributeError: _get_current_option_premium")
    ∧ (∀ (find_opt : FindOptimalOption) (now current_date : Date)
       (symbol : Ticker) (position : PortfolioPosition) (md : MarketData)
       (bear_market : Bool) (cash : ℚ) (c : OptionContract),
      position.state = .stock_owned → position.current_option = some c →
      process_stock_position find_opt now current_date symbol position md
          bear_market cash
        = .error "AttributeError: _get_current_option_premium")
    ∧ (∀ (find_opt : FindOptimalOption) (now current_date : Date)
       (symbol : Ticker) (position : PortfolioPosition) (md : MarketData)
       (bear_market : Bool) (cash : ℚ),
      position.state = .call_sold →
      process_stock_position find_opt now current_date symbol position md
          bear_market cash = .ok (position, cash, [])) := by
  refine ⟨?_, ?_, ?_⟩ <;>
    intro find_opt now current_date symbol position md bear_market cash
  · intro c hstate hopt
    simp [process_stock_position, hstate, hopt]
  · intro c hstate hopt
    simp [process_stock_position, hstate, hopt]
  · intro hstate
    simp [process_stock_position, hstate]

/-- Witness for the amended C10 on a concrete PUT_SOLD position with an
open put. -/
theorem missing_helper_attribute_error_witness :
    put_assignment_position.state = .put_sold
    ∧ process_stock_position fo_none ⟨2024, 1, 1⟩ ⟨2024, 3, 6⟩ .NVDA
        put_assignment_position (md_calm .NVDA) false 0
      = .error "AttributeError: _get_current_option_premium" :=
  ⟨rfl, missing_helper_attribute_error.1 fo_none ⟨2024, 1, 1⟩ ⟨2024, 3, 6⟩
    .NVDA put_assignment_position (md_calm .NVDA) false 0 _ rfl rfl⟩
